import Mathlib

/-!
Verification of the paylab payments-record service.

Shallow embedding of `src/app/models.py`, `src/app/main.py`,
`src/app/payment_service.py` and `src/app/core/config.py`.

Modelling conventions:
* Python `float` wire values are modelled as exact rationals (`ℚ`): every
  finite double denotes a rational, and the claims under study quantify over
  the denoted value.
* Python's builtin `round(x, 2)` rounds half to even; it is embedded as
  `pyRound2` below, acting on the denoted rational.
* `Decimal(str(x))` on a float already rounded to 2 places recovers exactly
  the 2-scale decimal value (the shortest round-tripping repr of such a
  double is its 2-decimal string), so the stored `Numeric(12, 2)` cell is
  modelled as the rational produced by `pyRound2`.
* SQLAlchemy sessions and the database are modelled by an explicit state
  (`Db`): a list of persisted rows, an autoincrement counter and a clock
  supplying `datetime.utcnow`.
* Raised `HTTPException`s are modelled with `Except`.
-/

namespace Paylab

/-- Application settings, from `src/app/core/config.py` (`Settings`); the copy
in `src/app/main.py` declares the same fields with the same defaults. -/
structure Settings where
  APP_NAME : String := "payments-service"
  ENV : String := "development"
  LOG_LEVEL : String := "INFO"
  API_KEY : String := "dev-secret"
  DATABASE_URL : String := "sqlite+pysqlite:///./payments.db"
deriving Repr, DecidableEq

/-- The process environment as seen by `pydantic_settings`: for each settings
field, the environment either supplies a string or is silent. -/
structure Env where
  APP_NAME : Option String := none
  ENV : Option String := none
  LOG_LEVEL : Option String := none
  API_KEY : Option String := none
  DATABASE_URL : Option String := none
deriving Repr, DecidableEq

/-- `Settings()` construction: each field is read from the environment when
present, else takes its declared default (`src/app/core/config.py`). -/
def mkSettings (e : Env) : Settings :=
  { APP_NAME := e.APP_NAME.getD "payments-service"
    ENV := e.ENV.getD "development"
    LOG_LEVEL := e.LOG_LEVEL.getD "INFO"
    API_KEY := e.API_KEY.getD "dev-secret"
    DATABASE_URL := e.DATABASE_URL.getD "sqlite+pysqlite:///./payments.db" }

/-- State of the `functools.lru_cache(maxsize=1)` wrapper around
`get_settings`: the cached value, if any, plus a count of how many times the
wrapped constructor has actually run. -/
structure SettingsCache where
  cached : Option Settings
  constructions : Nat
deriving Repr, DecidableEq

/-- A fresh process: nothing cached, constructor never run. -/
def SettingsCache.fresh : SettingsCache := ⟨none, 0⟩

/-- `get_settings()` from `src/app/core/config.py`: `lru_cache(maxsize=1)`
returns the cached instance when present, otherwise runs `Settings()` once
and caches the result. -/
def get_settings (e : Env) (st : SettingsCache) : Settings × SettingsCache :=
  match st.cached with
  | some s => (s, st)
  | none =>
      let s := mkSettings e
      (s, ⟨some s, st.constructions + 1⟩)

/-- `get_settings.cache_clear()`, provided by `functools.lru_cache` and used
in `src/tests/test_payments.py`: drops the cached instance. -/
def cache_clear (st : SettingsCache) : SettingsCache :=
  ⟨none, st.constructions⟩

/-- `n` successive calls of `get_settings` in one process, threading the
cache state. -/
def iterateGetSettings (e : Env) : Nat → SettingsCache → SettingsCache
  | 0, st => st
  | n + 1, st => iterateGetSettings e n (get_settings e st).2

/-- An `HTTPException` as raised in `src/app/main.py`. -/
structure HTTPException where
  status_code : Nat
  detail : String
deriving Repr, DecidableEq

/-- Python truthiness of an optional string (`if not x_api_key`): `None` and
the empty string are falsy, every other string is truthy. -/
def pyTruthy : Option String → Bool
  | none => false
  | some s => !(s == "")

/-- `verify_api_key` from `src/app/main.py`: raises 401 when
`not x_api_key or x_api_key != cfg.API_KEY`, else returns `None`. -/
def verify_api_key (x_api_key : Option String) (cfg : Settings) :
    Except HTTPException Unit :=
  if !(pyTruthy x_api_key) || (x_api_key != some cfg.API_KEY) then
    Except.error ⟨401, "Invalid or missing API key"⟩
  else
    Except.ok ()

/-- A string is whitespace-only: nonempty and every character is whitespace.
This predicate comes from the spec's words ("whitespace-only"); the source
never tests for whitespace. -/
def whitespaceOnly (s : String) : Bool :=
  !(s == "") && s.data.all Char.isWhitespace

/-- Round a rational to the nearest integer, ties to even: the semantics of
Python's builtin `round` on the denoted value. -/
def roundHalfEven (q : ℚ) : ℤ :=
  if q - ⌊q⌋ < 1/2 then ⌊q⌋
  else if 1/2 < q - ⌊q⌋ then ⌊q⌋ + 1
  else if ⌊q⌋ % 2 = 0 then ⌊q⌋ else ⌊q⌋ + 1

/-- `round(a, 2)` followed by `Decimal(str(·))`: round the amount half-to-even
at the second decimal place, yielding the exact 2-scale decimal that the
`Numeric(12, 2)` column stores. -/
def pyRound2 (a : ℚ) : ℚ :=
  (roundHalfEven (100 * a) : ℚ) / 100

/-- `float(Decimal(...))` conversion used when serialising the response. In
this rational model the denoted value is carried through unchanged. -/
def pyFloat (q : ℚ) : ℚ := q

/-- The validated creation DTO `PaymentCreate`
(`src/app/models.py`, duplicated in `src/app/main.py`). -/
structure PaymentCreate where
  order_id : String
  amount : ℚ
  currency : String
deriving Repr, DecidableEq

/-- The raw JSON body of a create request before pydantic validation. Each
field is present or absent; `currency` carries its default when absent. -/
structure RawPaymentCreate where
  order_id : Option String
  amount : Option ℚ
  currency : Option String
deriving Repr, DecidableEq

/-- One pydantic field-level validation failure for `PaymentCreate`. -/
inductive ValidationError where
  | missingOrderId
  | orderIdTooShort
  | orderIdTooLong
  | missingAmount
  | amountNotPositive
  | currencyNotUSD
deriving Repr, DecidableEq

/-- Pydantic validation of `PaymentCreate`
(`src/app/models.py`): `order_id` is a required string of length 1..64,
`amount` a required float with `gt=0`, `currency` the literal `"USD"`,
defaulting to `"USD"` when omitted. -/
def validatePaymentCreate (r : RawPaymentCreate) :
    Except ValidationError PaymentCreate :=
  match r.order_id with
  | none => Except.error ValidationError.missingOrderId
  | some oid =>
    if oid.length < 1 then Except.error ValidationError.orderIdTooShort
    else if 64 < oid.length then Except.error ValidationError.orderIdTooLong
    else
      match r.amount with
      | none => Except.error ValidationError.missingAmount
      | some a =>
        if a ≤ 0 then Except.error ValidationError.amountNotPositive
        else
          match r.currency with
          | none =>
              Except.ok { order_id := oid, amount := a, currency := "USD" }
          | some c =>
              if c = "USD" then
                Except.ok { order_id := oid, amount := a, currency := c }
              else Except.error ValidationError.currencyNotUSD

/-- The persisted `payments` row (`Payment` in `src/app/models.py` and
`src/app/main.py`): autoincrement integer `id`, `order_id`, `amount` as the
2-scale decimal cell, 3-character `currency`, and `created_at` defaulted to
`datetime.utcnow` (modelled as a clock reading). -/
structure Payment where
  id : Nat
  order_id : String
  amount : ℚ
  currency : String
  created_at : Nat
deriving Repr, DecidableEq

/-- The database reachable through one session: the persisted rows, the
autoincrement counter for `payments.id`, and a clock supplying
`datetime.utcnow` for the `created_at` column default. -/
structure Db where
  payments : List Payment
  nextId : Nat
  now : Nat
deriving Repr, DecidableEq

namespace ModelsRepo

/-- `PaymentRepository.create` from `src/app/models.py`: round the amount to
2 places, convert through `Decimal(str(·))`, build the entity, add, commit,
refresh (the refresh fills in the store-assigned `id` and `created_at`). -/
def create (db : Db) (data : PaymentCreate) : Payment × Db :=
  let amt := pyRound2 data.amount
  let obj : Payment :=
    { id := db.nextId
      order_id := data.order_id
      amount := amt
      currency := data.currency
      created_at := db.now }
  (obj, { db with payments := db.payments ++ [obj], nextId := db.nextId + 1 })

end ModelsRepo

namespace MainRepo

/-- `PaymentRepository.create` from `src/app/main.py`: the duplicated copy,
embedded from its own source text. -/
def create (db : Db) (data : PaymentCreate) : Payment × Db :=
  let amt := pyRound2 data.amount
  let obj : Payment :=
    { id := db.nextId
      order_id := data.order_id
      amount := amt
      currency := data.currency
      created_at := db.now }
  (obj, { db with payments := db.payments ++ [obj], nextId := db.nextId + 1 })

end MainRepo

/-- The response DTO `PaymentRead` (`src/app/models.py` /
`src/app/main.py`): `amount` is the float wire value. -/
structure PaymentRead where
  id : Nat
  order_id : String
  amount : ℚ
  currency : String
  created_at : Nat
deriving Repr, DecidableEq

/-- `PaymentRead.model_validate(payment)` (from_attributes): each DTO field
is read off the entity; the `Decimal` amount is coerced to the float field
type. Used by `create_new_payment` in `src/app/payment_service.py`. -/
def modelValidateRead (p : Payment) : PaymentRead :=
  { id := p.id
    order_id := p.order_id
    amount := pyFloat p.amount
    currency := p.currency
    created_at := p.created_at }

/-- `create_new_payment` from `src/app/payment_service.py`: run the
repository create from `src/app/models.py`, then `PaymentRead.model_validate`
on the stored entity. -/
def create_new_payment (payload : PaymentCreate) (db : Db) :
    PaymentRead × Db :=
  let pdb := ModelsRepo.create db payload
  (modelValidateRead pdb.1, pdb.2)

/-- Outcome of a POST /payments request (`create_payment` in
`src/app/main.py`), one constructor per terminal state. -/
inductive CreateResult where
  | unauthorized (detail : String)
  | unprocessable (e : ValidationError)
  | created (body : PaymentRead)
deriving Repr, DecidableEq

/-- HTTP status code of each terminal state of the create endpoint. -/
def CreateResult.status : CreateResult → Nat
  | .unauthorized _ => 401
  | .unprocessable _ => 422
  | .created _ => 201

/-- The `create_payment` endpoint from `src/app/main.py`: guard, then body
validation, then the inline repository create from `src/app/main.py`, then
the inline `PaymentRead(...)` construction with
`amount=float(payment.amount)`. -/
def create_payment (cfg : Settings) (x_api_key : Option String)
    (raw : RawPaymentCreate) (db : Db) : CreateResult × Db :=
  match verify_api_key x_api_key cfg with
  | Except.error e => (CreateResult.unauthorized e.detail, db)
  | Except.ok _ =>
    match validatePaymentCreate raw with
    | Except.error v => (CreateResult.unprocessable v, db)
    | Except.ok payload =>
      let pdb := MainRepo.create db payload
      let payment := pdb.1
      (CreateResult.created
        { id := payment.id
          order_id := payment.order_id
          amount := pyFloat payment.amount
          currency := payment.currency
          created_at := payment.created_at }, pdb.2)

/-- A database-level failure raised by the store driver. -/
structure DbError where
  message : String
deriving Repr, DecidableEq

/-- A plain HTTP response body for the probe endpoints. -/
structure ProbeResponse where
  status_code : Nat
  body : String
deriving Repr, DecidableEq

/-- The `ready` endpoint from `src/app/main.py`: run `db.execute(select(1))`;
on success return `{"status": "ready"}` (200), on any exception catch it and
raise a 503 `HTTPException` with detail `"Database not ready"`. The query
outcome is the endpoint's input. -/
def ready (queryResult : Except DbError Unit) : ProbeResponse :=
  match queryResult with
  | Except.ok _ => { status_code := 200, body := "ready" }
  | Except.error _ => { status_code := 503, body := "Database not ready" }

/-- A session handle produced by `SessionLocal()`: tracks whether `close()`
has been called on it. -/
structure DbSession where
  closed : Bool
deriving Repr, DecidableEq

/-- `SessionLocal()` yields a fresh open session. -/
def SessionLocal : DbSession := { closed := false }

/-- `Session.close()`. -/
def DbSession.close (s : DbSession) : DbSession := { s with closed := true }

/-- `get_db` from `src/app/main.py`: acquire a session, yield it to the unit
of work, and in the `finally` block close it — both when the unit of work
returns normally and when it raises. The unit of work is a function from the
session; the result pairs its outcome with the session's final state. -/
def get_db {ε α : Type} (body : DbSession → Except ε α) :
    Except ε α × DbSession :=
  let db := SessionLocal
  match body db with
  | Except.ok a => (Except.ok a, db.close)
  | Except.error e => (Except.error e, db.close)

/-! ## Helper lemmas -/

lemma verify_api_key_error_iff (h : Option String) (cfg : Settings) :
    verify_api_key h cfg =
        Except.error ⟨401, "Invalid or missing API key"⟩ ↔
      (h = none ∨ h = some "" ∨ h ≠ some cfg.API_KEY) := by
  cases h with
  | none => simp [verify_api_key, pyTruthy]
  | some s =>
      by_cases hs : s = ""
      · subst hs
        simp [verify_api_key, pyTruthy]
      · by_cases hk : s = cfg.API_KEY
        · subst hk
          simp [verify_api_key, pyTruthy, hs]
        · simp [verify_api_key, pyTruthy, hs, hk]

lemma verify_api_key_ok_iff (h : Option String) (cfg : Settings) :
    verify_api_key h cfg = Except.ok () ↔
      (∃ s, h = some s ∧ s ≠ "" ∧ s = cfg.API_KEY) := by
  cases h with
  | none => simp [verify_api_key, pyTruthy]
  | some s =>
      by_cases hs : s = ""
      · subst hs
        simp [verify_api_key, pyTruthy]
      · by_cases hk : s = cfg.API_KEY
        · subst hk
          simp [verify_api_key, pyTruthy, hs]
        · simp [verify_api_key, pyTruthy, hs, hk]

lemma validate_currency_ne_usd (raw : RawPaymentCreate) (c : String)
    (hc : raw.currency = some c) (hne : c ≠ "USD") :
    ∃ v, validatePaymentCreate raw = Except.error v := by
  rcases raw with ⟨oid?, a?, cur?⟩
  cases hc
  cases oid? with
  | none => exact ⟨_, rfl⟩
  | some oid =>
      simp only [validatePaymentCreate]
      by_cases h1 : oid.length < 1
      · rw [if_pos h1]; exact ⟨_, rfl⟩
      · rw [if_neg h1]
        by_cases h2 : 64 < oid.length
        · rw [if_pos h2]; exact ⟨_, rfl⟩
        · rw [if_neg h2]
          cases a? with
          | none => exact ⟨_, rfl⟩
          | some a =>
              dsimp only
              by_cases h3 : a ≤ 0
              · rw [if_pos h3]; exact ⟨_, rfl⟩
              · rw [if_neg h3, if_neg hne]; exact ⟨_, rfl⟩

lemma validate_amount_nonpos (raw : RawPaymentCreate) (a : ℚ)
    (ha : raw.amount = some a) (hle : a ≤ 0) :
    ∃ v, validatePaymentCreate raw = Except.error v := by
  rcases raw with ⟨oid?, a?, cur?⟩
  cases ha
  cases oid? with
  | none => exact ⟨_, rfl⟩
  | some oid =>
      simp only [validatePaymentCreate]
      by_cases h1 : oid.length < 1
      · rw [if_pos h1]; exact ⟨_, rfl⟩
      · rw [if_neg h1]
        by_cases h2 : 64 < oid.length
        · rw [if_pos h2]; exact ⟨_, rfl⟩
        · rw [if_neg h2]
          cases cur? with
          | none => dsimp only; rw [if_pos hle]; exact ⟨_, rfl⟩
          | some c => dsimp only; rw [if_pos hle]; exact ⟨_, rfl⟩

lemma create_payment_of_error (cfg : Settings) (key : Option String)
    (raw : RawPaymentCreate) (db : Db) (v : ValidationError)
    (hauth : verify_api_key key cfg = Except.ok ())
    (hval : validatePaymentCreate raw = Except.error v) :
    create_payment cfg key raw db = (CreateResult.unprocessable v, db) := by
  unfold create_payment
  rw [hauth, hval]

lemma create_payment_of_ok (cfg : Settings) (key : Option String)
    (raw : RawPaymentCreate) (db : Db) (payload : PaymentCreate)
    (hauth : verify_api_key key cfg = Except.ok ())
    (hval : validatePaymentCreate raw = Except.ok payload) :
    create_payment cfg key raw db =
      (CreateResult.created (create_new_payment payload db).1,
        (create_new_payment payload db).2) := by
  unfold create_payment
  rw [hauth, hval]
  rfl

lemma validate_default_currency (oid : String) (a : ℚ)
    (h1 : 1 ≤ oid.length) (h2 : oid.length ≤ 64) (h3 : 0 < a) :
    validatePaymentCreate ⟨some oid, some a, none⟩ =
      Except.ok ⟨oid, a, "USD"⟩ := by
  simp only [validatePaymentCreate]
  rw [if_neg (by omega), if_neg (by omega), if_neg (by linarith)]

lemma abs_roundHalfEven_sub_le (q : ℚ) :
    |(roundHalfEven q : ℚ) - q| ≤ 1/2 := by
  have h0 : (⌊q⌋ : ℚ) ≤ q := Int.floor_le q
  have h1 : q < ⌊q⌋ + 1 := Int.lt_floor_add_one q
  unfold roundHalfEven
  by_cases hc : q - ⌊q⌋ < 1/2
  · rw [if_pos hc, abs_sub_comm, abs_of_nonneg (by linarith)]
    linarith
  · rw [if_neg hc]
    by_cases hc2 : 1/2 < q - ⌊q⌋
    · rw [if_pos hc2]
      push_cast
      rw [abs_of_nonneg (by linarith)]
      linarith
    · rw [if_neg hc2]
      have heq : q - ⌊q⌋ = 1/2 := le_antisymm (not_lt.mp hc2) (not_lt.mp hc)
      by_cases he : ⌊q⌋ % 2 = 0
      · rw [if_pos he, abs_sub_comm, abs_of_nonneg (by linarith)]
        linarith
      · rw [if_neg he]
        push_cast
        rw [abs_of_nonneg (by linarith)]
        linarith

lemma abs_pyRound2_sub_le (a : ℚ) : |pyRound2 a - a| ≤ 1/200 := by
  have h := abs_roundHalfEven_sub_le (100 * a)
  unfold pyRound2
  have heq : (roundHalfEven (100 * a) : ℚ) / 100 - a =
      ((roundHalfEven (100 * a) : ℚ) - 100 * a) / 100 := by ring
  rw [heq, abs_div, abs_of_pos (by norm_num : (0:ℚ) < 100)]
  linarith

lemma iterateGetSettings_of_cached (e : Env) (n : Nat) (st : SettingsCache)
    (s : Settings) (hs : st.cached = some s) :
    iterateGetSettings e n st = st := by
  induction n with
  | zero => rfl
  | succ n ih =>
      show iterateGetSettings e n (get_settings e st).2 = st
      have hstep : (get_settings e st).2 = st := by
        unfold get_settings
        rw [hs]
      rw [hstep, ih]

/-! ## Claim theorems -/

/-- C2 (counterexample): the claim says the guard raises 401 whenever the
header is whitespace-only, for every configured key. With configured key
`" "` and header `" "` the header is whitespace-only, yet the guard passes. -/
theorem verify_api_key_whitespace_claim_false :
    whitespaceOnly " " = true ∧
      verify_api_key (some " ") { API_KEY := " " } = Except.ok () := by
  constructor
  · decide
  · rfl

/-- C2 (amended): the guard raises 401 with detail
"Invalid or missing API key" exactly when the header is absent, the empty
string, or not equal (case-sensitively, without trimming) to the configured
key; otherwise it passes. A whitespace-only header is rejected exactly when
it differs from the configured key. -/
theorem verify_api_key_amended (h : Option String) (cfg : Settings) :
    (verify_api_key h cfg =
        Except.error ⟨401, "Invalid or missing API key"⟩ ↔
      (h = none ∨ h = some "" ∨ h ≠ some cfg.API_KEY)) ∧
    (verify_api_key h cfg = Except.ok () ↔
      ¬ (h = none ∨ h = some "" ∨ h ≠ some cfg.API_KEY)) := by
  constructor
  · exact verify_api_key_error_iff h cfg
  · rw [verify_api_key_ok_iff]
    push_neg
    constructor
    · rintro ⟨s, rfl, hs, rfl⟩
      exact ⟨by simp, by simpa using hs, rfl⟩
    · rintro ⟨h1, h2, h3⟩
      refine ⟨cfg.API_KEY, h3, fun he => h2 ?_, rfl⟩
      rw [h3, he]

/-- C9: when the configured API key is the empty string, the guard raises
401 for every header value, including one exactly equal to the (empty)
configured key; in general it passes exactly when the header is a non-empty
string equal to the configured key. -/
theorem verify_api_key_empty_key (cfg : Settings) (h : Option String) :
    (verify_api_key h cfg = Except.ok () ↔
      (∃ s, h = some s ∧ s ≠ "" ∧ s = cfg.API_KEY)) ∧
    (cfg.API_KEY = "" →
      verify_api_key h cfg =
        Except.error ⟨401, "Invalid or missing API key"⟩) := by
  refine ⟨verify_api_key_ok_iff h cfg, fun hkey => ?_⟩
  rw [verify_api_key_error_iff]
  cases h with
  | none => exact Or.inl rfl
  | some s =>
      by_cases hs : s = ""
      · exact Or.inr (Or.inl (by rw [hs]))
      · refine Or.inr (Or.inr ?_)
        intro hcontra
        exact hs (by injection hcontra with h2; rw [h2, hkey])

/-- C9 witness: with configured key `""` and header `""` (equal to the key),
the guard still raises 401. -/
theorem verify_api_key_empty_key_witness :
    ("" : String) = ({ API_KEY := "" } : Settings).API_KEY ∧
      verify_api_key (some "") { API_KEY := "" } =
        Except.error ⟨401, "Invalid or missing API key"⟩ :=
  ⟨rfl, (verify_api_key_empty_key { API_KEY := "" } (some "")).2 rfl⟩

/-- C6: the ready endpoint returns 200 "ready" when the trivial query
succeeds, and for every exception the query raises it returns 503 with the
fixed detail "Database not ready". -/
theorem ready_catches_db_errors :
    ready (Except.ok ()) = ⟨200, "ready"⟩ ∧
      ∀ e : DbError, ready (Except.error e) = ⟨503, "Database not ready"⟩ :=
  ⟨rfl, fun _ => rfl⟩

/-- C7: `get_db` yields a fresh session to the unit of work and closes it
unconditionally — on the success path and on the raising path alike — and the
unit of work's outcome is passed through unchanged. -/
theorem get_db_always_closes {ε α : Type} (body : DbSession → Except ε α) :
    (get_db body).2.closed = true ∧ (get_db body).1 = body SessionLocal := by
  unfold get_db
  cases hb : body SessionLocal with
  | ok a => simp [hb, DbSession.close]
  | error e => simp [hb, DbSession.close]

/-- C4: with the guard passing, any currency other than the literal "USD"
makes creation fail with a 422 validation error and leaves the store
unchanged; omitting currency (with the other fields valid) defaults it to
"USD" and creation succeeds with status 201. -/
theorem currency_usd_only (cfg : Settings) (key : Option String)
    (raw : RawPaymentCreate) (db : Db)
    (hauth : verify_api_key key cfg = Except.ok ()) :
    (∀ c, raw.currency = some c → c ≠ "USD" →
      (create_payment cfg key raw db).1.status = 422 ∧
        (create_payment cfg key raw db).2 = db) ∧
    (∀ oid a, raw = ⟨some oid, some a, none⟩ →
      1 ≤ oid.length → oid.length ≤ 64 → 0 < a →
      ∃ body, (create_payment cfg key raw db).1 = CreateResult.created body ∧
        body.currency = "USD" ∧
        (create_payment cfg key raw db).1.status = 201) := by
  constructor
  · intro c hc hne
    obtain ⟨v, hv⟩ := validate_currency_ne_usd raw c hc hne
    rw [create_payment_of_error cfg key raw db v hauth hv]
    exact ⟨rfl, rfl⟩
  · intro oid a hraw h1 h2 h3
    subst hraw
    have hval := validate_default_currency oid a h1 h2 h3
    rw [create_payment_of_ok cfg key _ db _ hauth hval]
    exact ⟨_, rfl, rfl, rfl⟩

/-- C4 witness: with the default key, currency "EUR" yields 422, and an
omitted currency yields a created payment with currency "USD". -/
theorem currency_usd_only_witness :
    verify_api_key (some "dev-secret") {} = Except.ok () ∧
    (create_payment {} (some "dev-secret")
        ⟨some "ORD-EUR", some 5, some "EUR"⟩ ⟨[], 1, 0⟩).1.status = 422 ∧
    (∃ body, (create_payment {} (some "dev-secret")
        ⟨some "ORD-DEFAULT", some (617/50), none⟩ ⟨[], 1, 0⟩).1 =
          CreateResult.created body ∧ body.currency = "USD") := by
  refine ⟨rfl, ?_, ?_⟩
  · exact ((currency_usd_only {} (some "dev-secret")
      ⟨some "ORD-EUR", some 5, some "EUR"⟩ ⟨[], 1, 0⟩ rfl).1
        "EUR" rfl (by decide)).1
  · obtain ⟨body, hb, hc, _⟩ := (currency_usd_only {} (some "dev-secret")
      ⟨some "ORD-DEFAULT", some (617/50), none⟩ ⟨[], 1, 0⟩ rfl).2
        "ORD-DEFAULT" (617/50) rfl (by decide) (by decide) (by norm_num)
    exact ⟨body, hb, hc⟩

/-- C5: with the guard passing, a non-positive amount makes creation fail
with a 422 validation error and leaves the store untouched (no persistence);
the store itself does not enforce positivity: the repository inserts a row
for every validated DTO, whatever the sign of its amount. -/
theorem nonpositive_amount_rejected (cfg : Settings) (key : Option String)
    (raw : RawPaymentCreate) (db : Db) (a : ℚ)
    (hauth : verify_api_key key cfg = Except.ok ())
    (ha : raw.amount = some a) (hle : a ≤ 0) :
    ((create_payment cfg key raw db).1.status = 422 ∧
      (create_payment cfg key raw db).2 = db) ∧
    (∀ (db' : Db) (d : PaymentCreate),
      (ModelsRepo.create db' d).2.payments =
        db'.payments ++ [(ModelsRepo.create db' d).1]) := by
  constructor
  · obtain ⟨v, hv⟩ := validate_amount_nonpos raw a ha hle
    rw [create_payment_of_error cfg key raw db v hauth hv]
    exact ⟨rfl, rfl⟩
  · intro db' d
    rfl

/-- C5 witness: amount -1 with the default key yields 422 and an unchanged
store. -/
theorem nonpositive_amount_rejected_witness :
    (-1 : ℚ) ≤ 0 ∧
    (create_payment {} (some "dev-secret")
        ⟨some "ORD123", some (-1), some "USD"⟩ ⟨[], 1, 0⟩).1.status = 422 ∧
    (create_payment {} (some "dev-secret")
        ⟨some "ORD123", some (-1), some "USD"⟩ ⟨[], 1, 0⟩).2 = ⟨[], 1, 0⟩ := by
  have h := nonpositive_amount_rejected {} (some "dev-secret")
    ⟨some "ORD123", some (-1), some "USD"⟩ ⟨[], 1, 0⟩ (-1)
    rfl rfl (by norm_num)
  exact ⟨by norm_num, h.1.1, h.1.2⟩

/-- C3: on successful return the repository's create yields an entity whose
order_id and currency equal the input's, whose amount is the 2-decimal
rounded fixed-point value, whose created_at is the creation time, and whose
id is store-assigned and distinct from every existing row's id (assuming the
autoincrement invariant, which the operation preserves). -/
theorem create_entity_fields (db : Db) (data : PaymentCreate)
    (hinv : ∀ q ∈ db.payments, q.id < db.nextId) :
    (ModelsRepo.create db data).1.order_id = data.order_id ∧
    (ModelsRepo.create db data).1.currency = data.currency ∧
    (ModelsRepo.create db data).1.amount = pyRound2 data.amount ∧
    (ModelsRepo.create db data).1.created_at = db.now ∧
    (∀ q ∈ db.payments, q.id ≠ (ModelsRepo.create db data).1.id) ∧
    (ModelsRepo.create db data).1 ∈ (ModelsRepo.create db data).2.payments ∧
    (∀ q ∈ (ModelsRepo.create db data).2.payments,
      q.id < (ModelsRepo.create db data).2.nextId) := by
  refine ⟨rfl, rfl, rfl, rfl, ?_, ?_, ?_⟩
  · intro q hq
    exact Nat.ne_of_lt (hinv q hq)
  · simp [ModelsRepo.create]
  · intro q hq
    simp only [ModelsRepo.create, List.mem_append, List.mem_singleton] at hq
    rcases hq with hq | hq
    · exact Nat.lt_succ_of_lt (hinv q hq)
    · rw [hq]
      exact Nat.lt_succ_self _

/-- C3 witness: creating from an empty store at clock 42 yields the expected
entity with id 1 and created_at 42. -/
theorem create_entity_fields_witness :
    (∀ q ∈ (⟨[], 1, 42⟩ : Db).payments, q.id < (⟨[], 1, 42⟩ : Db).nextId) ∧
    (ModelsRepo.create ⟨[], 1, 42⟩ ⟨"ORD123", 21/2, "USD"⟩).1.order_id =
      "ORD123" ∧
    (ModelsRepo.create ⟨[], 1, 42⟩ ⟨"ORD123", 21/2, "USD"⟩).1.created_at =
      42 := by
  have h := create_entity_fields ⟨[], 1, 42⟩ ⟨"ORD123", 21/2, "USD"⟩
    (by intro q hq; simp at hq)
  exact ⟨by intro q hq; simp at hq, h.1, h.2.2.2.1⟩

/-- C1: for every amount with more than 2 decimal digits, the persisted and
the returned amount both equal round(amount, 2): the half-to-even rounding of
the wire value at the second decimal place, a 2-scale fixed-point value
within 1/200 of the submitted amount. -/
theorem amount_rounded_to_two_decimals (data : PaymentCreate) (db : Db)
    (hmore : ¬ ∃ n : ℤ, 100 * data.amount = (n : ℚ)) :
    (ModelsRepo.create db data).1.amount = pyRound2 data.amount ∧
    (create_new_payment data db).1.amount = pyRound2 data.amount ∧
    (∃ n : ℤ, pyRound2 data.amount = (n : ℚ) / 100) ∧
    |pyRound2 data.amount - data.amount| ≤ 1/200 := by
  refine ⟨rfl, rfl, ⟨roundHalfEven (100 * data.amount), rfl⟩, ?_⟩
  exact abs_pyRound2_sub_le data.amount

/-- C1 witness: input 10.556 (= 2639/250) has more than 2 decimal digits and
is persisted as 10.56 (= 264/25). -/
theorem amount_rounded_to_two_decimals_witness :
    (¬ ∃ n : ℤ, 100 * ((2639:ℚ)/250) = (n : ℚ)) ∧
    (ModelsRepo.create ⟨[], 1, 0⟩ ⟨"ORD-ROUND", 2639/250, "USD"⟩).1.amount =
      264/25 := by
  have hmore : ¬ ∃ n : ℤ, 100 * ((2639:ℚ)/250) = (n : ℚ) := by
    rintro ⟨n, hn⟩
    have h5 : (5 : ℚ) * n = 5278 := by
      rw [← hn]; ring
    have h5' : (5 : ℤ) * n = 5278 := by exact_mod_cast h5
    omega
  have h := amount_rounded_to_two_decimals ⟨"ORD-ROUND", 2639/250, "USD"⟩
    ⟨[], 1, 0⟩ hmore
  refine ⟨hmore, h.1.trans ?_⟩
  norm_num [pyRound2, roundHalfEven]

/-- C10: the two copies of PaymentRepository.create compute identical
entities and states for every input; `PaymentRead.model_validate` agrees
with the endpoint's inline DTO construction; and when guard and validation
pass, the create endpoint's whole pipeline equals the service layer's
`create_new_payment`. -/
theorem duplicated_implementations_equivalent (db : Db)
    (data : PaymentCreate) (p : Payment) :
    ModelsRepo.create db data = MainRepo.create db data ∧
    modelValidateRead p =
      { id := p.id, order_id := p.order_id, amount := pyFloat p.amount,
        currency := p.currency, created_at := p.created_at } ∧
    (∀ (cfg : Settings) (key : Option String) (raw : RawPaymentCreate)
        (payload : PaymentCreate),
      verify_api_key key cfg = Except.ok () →
      validatePaymentCreate raw = Except.ok payload →
      create_payment cfg key raw db =
        (CreateResult.created (create_new_payment payload db).1,
          (create_new_payment payload db).2)) := by
  refine ⟨rfl, rfl, ?_⟩
  intro cfg key raw payload hauth hval
  exact create_payment_of_ok cfg key raw db payload hauth hval

/-- C10 witness: the endpoint and the service layer agree on a concrete
valid request. -/
theorem duplicated_implementations_equivalent_witness :
    validatePaymentCreate ⟨some "ORD123", some (21/2), some "USD"⟩ =
      Except.ok ⟨"ORD123", 21/2, "USD"⟩ ∧
    create_payment {} (some "dev-secret")
        ⟨some "ORD123", some (21/2), some "USD"⟩ ⟨[], 1, 0⟩ =
      (CreateResult.created
          (create_new_payment ⟨"ORD123", 21/2, "USD"⟩ ⟨[], 1, 0⟩).1,
        (create_new_payment ⟨"ORD123", 21/2, "USD"⟩ ⟨[], 1, 0⟩).2) := by
  have hval : validatePaymentCreate ⟨some "ORD123", some (21/2), some "USD"⟩ =
      Except.ok ⟨"ORD123", 21/2, "USD"⟩ := by
    simp only [validatePaymentCreate]
    rw [if_neg (by decide), if_neg (by decide), if_neg (by norm_num)]
    simp
  exact ⟨hval,
    (duplicated_implementations_equivalent ⟨[], 1, 0⟩ ⟨"ORD123", 21/2, "USD"⟩
      ⟨1, "ORD123", 21/2, "USD", 0⟩).2.2 {} (some "dev-secret") _ _ rfl hval⟩

/-- C8: `get_settings` is idempotent within a process — once a call has
produced an instance, every later call returns that same instance with the
cache unchanged, and from a fresh process any positive number of calls runs
the constructor exactly once — and `cache_clear` forces the next call to
reconstruct. -/
theorem get_settings_cached_singleton (e : Env) (st : SettingsCache) :
    (∀ s st', get_settings e st = (s, st') →
      get_settings e st' = (s, st')) ∧
    (∀ n, 1 ≤ n →
      iterateGetSettings e n SettingsCache.fresh =
        ⟨some (mkSettings e), 1⟩) ∧
    ((get_settings e (cache_clear st)).1 = mkSettings e ∧
      (get_settings e (cache_clear st)).2.constructions =
        st.constructions + 1) := by
  have hstep : ∀ (st2 : SettingsCache) (s2 : Settings),
      st2.cached = some s2 → get_settings e st2 = (s2, st2) := by
    intro st2 s2 h2
    unfold get_settings
    rw [h2]
  refine ⟨?_, ?_, rfl, rfl⟩
  · intro s st' hcall
    rcases hst : st.cached with _ | s0
    · have hfirst : get_settings e st =
          (mkSettings e, ⟨some (mkSettings e), st.constructions + 1⟩) := by
        unfold get_settings
        rw [hst]
      rw [hfirst] at hcall
      injection hcall with h1 h2
      subst h1
      subst h2
      exact hstep _ _ rfl
    · have hfirst : get_settings e st = (s0, st) := hstep st s0 hst
      rw [hfirst] at hcall
      injection hcall with h1 h2
      subst h1
      subst h2
      exact hstep st s0 hst
  · intro n hn
    match n, hn with
    | n + 1, _ =>
      show iterateGetSettings e n (get_settings e SettingsCache.fresh).2 =
        ⟨some (mkSettings e), 1⟩
      have hone : (get_settings e SettingsCache.fresh).2 =
          ⟨some (mkSettings e), 1⟩ := rfl
      rw [hone]
      exact iterateGetSettings_of_cached e n _ (mkSettings e) rfl

/-- C8 witness: in a fresh process, two successive calls construct the
settings exactly once. -/
theorem get_settings_cached_singleton_witness :
    1 ≤ 2 ∧ iterateGetSettings {} 2 SettingsCache.fresh =
      ⟨some (mkSettings {}), 1⟩ :=
  ⟨by decide,
    (get_settings_cached_singleton {} SettingsCache.fresh).2.1 2 (by decide)⟩

end Paylab
